import Mathlib

/-
Verification development for the Kubernetes dashboard TUI (src/cli.py).

The program shells out to kubectl, decodes its JSON output and renders
screens.  This file gives a shallow embedding of the pure parts of that
program: the operation dispatch of OperationsScreen, the per-kind resource
projection of ResourcesScreen.load_resources, the namespace screen, and the
Textual screen stack used for navigation.  Decoded JSON records are modelled
as Lean structures whose Option fields correspond to dictionary accesses via
dict.get with a default; mandatory bracket accesses become plain fields.
Counts taken from the JSON are modelled as naturals.
-/

/-- Result of one external kubectl process invocation: exit status together
with the separately captured standard output and standard error streams
(the create_subprocess_exec / communicate pattern in src/cli.py). -/
structure ProcResult where
  returncode : Int
  stdout : String
  stderr : String
deriving DecidableEq

/-- One modal result screen, OperationResultScreen(title, content) in
src/cli.py. -/
structure DisplayResult where
  title : String
  content : String
deriving DecidableEq

/-- Observable effect of one operation dispatch: the argument vectors of
every external process actually launched, and the result screen pushed onto
the app, if any. -/
structure ExecEffect where
  launched : List (List String)
  screen : Option DisplayResult
deriving DecidableEq

/-- Body built by OperationsScreen._describe_resource (src/cli.py 157-160):
standard output on exit status zero, otherwise standard error behind an
error marker. -/
def describeBody (r : ProcResult) : String :=
  if r.returncode = 0 then r.stdout else "Error: " ++ r.stderr

/-- Body built by OperationsScreen._get_logs (src/cli.py 181-184).  The
Python expression stdout.decode() or "No logs available" substitutes the
fallback text when the captured standard output is empty. -/
def logsBody (r : ProcResult) : String :=
  if r.returncode = 0 then (if r.stdout = "" then "No logs available" else r.stdout)
  else "Error: " ++ r.stderr

/-- Body built by OperationsScreen._restart_deployment (src/cli.py 256-259):
a success banner followed by standard output on exit zero, otherwise
standard error behind a restart-specific error marker. -/
def restartBody (r : ProcResult) : String :=
  if r.returncode = 0 then "✅ Deployment restart initiated successfully!\n\n" ++ r.stdout
  else "❌ Error restarting deployment: " ++ r.stderr

/-- Body built by OperationsScreen._rollout_status (src/cli.py 276-279). -/
def rolloutStatusBody (r : ProcResult) : String :=
  if r.returncode = 0 then r.stdout else "Error: " ++ r.stderr

/-- Body built by OperationsScreen._view_data (src/cli.py 296-299). -/
def viewDataBody (r : ProcResult) : String :=
  if r.returncode = 0 then r.stdout else "Error: " ++ r.stderr

/-- Command line shown (never executed) by _port_forward, src/cli.py 196. -/
def portForwardCmd (ctx ns name : String) : String :=
  "kubectl --context " ++ ctx ++ " -n " ++ ns ++ " port-forward " ++ name ++ " 8080:80"

/-- Command line shown (never executed) by _exec_shell, src/cli.py 208. -/
def execShellCmd (ctx ns name : String) : String :=
  "kubectl --context " ++ ctx ++ " -n " ++ ns ++ " exec -it " ++ name ++ " -- /bin/bash"

/-- Command line shown (never executed) by _edit_resource, src/cli.py 216.
The Python slice resource_type[:-1] drops the trailing letter s. -/
def editCmd (ctx ns rt name : String) : String :=
  "kubectl --context " ++ ctx ++ " -n " ++ ns ++ " edit " ++ String.dropRight rt 1 ++ " " ++ name

/-- Command line shown (never executed) by _delete_resource, src/cli.py 224. -/
def deleteCmd (ctx ns rt name : String) : String :=
  "kubectl --context " ++ ctx ++ " -n " ++ ns ++ " delete " ++ String.dropRight rt 1 ++ " " ++ name

/-- Command lines shown (never executed) by _scale_deployment,
src/cli.py 237 and 239, with the replica count spelled out. -/
def scaleCmd (ctx ns name replicas : String) : String :=
  "kubectl --context " ++ ctx ++ " -n " ++ ns ++ " scale deployment " ++ name ++
    " --replicas=" ++ replicas

/-- Argument vector of the describe invocation, src/cli.py 149-154. -/
def describeArgv (ctx ns rt name : String) : List String :=
  ["kubectl", "--context", ctx, "-n", ns, "describe", String.dropRight rt 1, name]

/-- Argument vector of the logs invocation, src/cli.py 169-172. -/
def logsArgv (ctx ns : String) (previous : Bool) (name : String) : List String :=
  ["kubectl", "--context", ctx, "-n", ns, "logs"] ++
    (if previous then ["--previous"] else []) ++ [name]

/-- Argument vector of the rollout restart invocation, src/cli.py 248-253. -/
def restartArgv (ctx ns name : String) : List String :=
  ["kubectl", "--context", ctx, "-n", ns, "rollout", "restart", "deployment", name]

/-- Argument vector of the rollout status invocation, src/cli.py 268-273. -/
def rolloutStatusArgv (ctx ns name : String) : List String :=
  ["kubectl", "--context", ctx, "-n", ns, "rollout", "status", "deployment", name]

/-- Argument vector of the view-data invocation, src/cli.py 288-293. -/
def viewDataArgv (ctx ns rt name : String) : List String :=
  ["kubectl", "--context", ctx, "-n", ns, "get", String.dropRight rt 1, name, "-o", "yaml"]

/-- OperationsScreen._describe_resource (src/cli.py 147-162).  The Except
argument stands for the subprocess invocation: an error value models an
exception raised while launching or communicating with the process. -/
def _describe_resource (ctx ns rt name : String) (proc : Except String ProcResult) :
    Except String ExecEffect :=
  proc.map (fun r =>
    ⟨[describeArgv ctx ns rt name], some ⟨"Describe " ++ name, describeBody r⟩⟩)

/-- OperationsScreen._get_logs (src/cli.py 164-187): returns without any
effect unless the resource type is pods, then one logs invocation. -/
def _get_logs (ctx ns rt name : String) (previous : Bool)
    (proc : Except String ProcResult) : Except String ExecEffect :=
  if rt ≠ "pods" then Except.ok ⟨[], none⟩
  else proc.map (fun r =>
    ⟨[logsArgv ctx ns previous name],
     some ⟨(if previous then "Previous Logs" else "Logs") ++ " - " ++ name, logsBody r⟩⟩)

/-- OperationsScreen._port_forward (src/cli.py 189-199): launches nothing,
only shows the command text. -/
def _port_forward (ctx ns rt name : String) : ExecEffect :=
  if rt ≠ "pods" then ⟨[], none⟩
  else ⟨[], some ⟨"Port Forward Setup",
    "To set up port forwarding, run:\n\n" ++ portForwardCmd ctx ns name ++
      "\n\nThis will forward local port 8080 to pod port 80.\nYou can modify the ports as needed."⟩⟩

/-- OperationsScreen._exec_shell (src/cli.py 201-211): launches nothing. -/
def _exec_shell (ctx ns rt name : String) : ExecEffect :=
  if rt ≠ "pods" then ⟨[], none⟩
  else ⟨[], some ⟨"Exec Shell",
    "To execute a shell in the pod, run:\n\n" ++ execShellCmd ctx ns name ++
      "\n\nAlternatively, try /bin/sh if bash is not available."⟩⟩

/-- OperationsScreen._edit_resource (src/cli.py 213-219): launches nothing. -/
def _edit_resource (ctx ns rt name : String) : ExecEffect :=
  ⟨[], some ⟨"Edit Resource",
    "To edit this resource, run:\n\n" ++ editCmd ctx ns rt name ++
      "\n\nThis will open the resource in your default editor."⟩⟩

/-- OperationsScreen._delete_resource (src/cli.py 221-227): launches nothing,
shows the command behind a destructive-action warning. -/
def _delete_resource (ctx ns rt name : String) : ExecEffect :=
  ⟨[], some ⟨"Delete Resource",
    "⚠️ WARNING: This will permanently delete the resource!\n\nTo delete this resource, run:\n\n" ++
      deleteCmd ctx ns rt name ++ "\n\n⚠️ This action cannot be undone!"⟩⟩

/-- OperationsScreen._scale_deployment (src/cli.py 229-241): launches
nothing, shows a scale-up and a scale-down command. -/
def _scale_deployment (ctx ns rt name : String) : ExecEffect :=
  if rt ≠ "deployments" then ⟨[], none⟩
  else ⟨[], some ⟨"Scale Deployment",
    "To scale this deployment:\n\nScale to 3 replicas:\n" ++ scaleCmd ctx ns name "3" ++
      "\n\nScale to 0 (stop all pods):\n" ++ scaleCmd ctx ns name "0"⟩⟩

/-- OperationsScreen._restart_deployment (src/cli.py 243-261). -/
def _restart_deployment (ctx ns rt name : String) (proc : Except String ProcResult) :
    Except String ExecEffect :=
  if rt ≠ "deployments" then Except.ok ⟨[], none⟩
  else proc.map (fun r =>
    ⟨[restartArgv ctx ns name], some ⟨"Restart Deployment", restartBody r⟩⟩)

/-- OperationsScreen._rollout_status (src/cli.py 263-281). -/
def _rollout_status (ctx ns rt name : String) (proc : Except String ProcResult) :
    Except String ExecEffect :=
  if rt ≠ "deployments" then Except.ok ⟨[], none⟩
  else proc.map (fun r =>
    ⟨[rolloutStatusArgv ctx ns name], some ⟨"Rollout Status", rolloutStatusBody r⟩⟩)

/-- OperationsScreen._view_data (src/cli.py 283-301). -/
def _view_data (ctx ns rt name : String) (proc : Except String ProcResult) :
    Except String ExecEffect :=
  if rt ≠ "configmaps" ∧ rt ≠ "secrets" then Except.ok ⟨[], none⟩
  else proc.map (fun r =>
    ⟨[viewDataArgv ctx ns rt name], some ⟨"Data - " ++ name, viewDataBody r⟩⟩)

/-- The body of the try block of OperationsScreen.execute_operation
(src/cli.py 121-143): the if/elif chain over the action tag.  An unmatched
action falls through with no effect. -/
def dispatchOperation (ctx ns rt name action : String)
    (proc : Except String ProcResult) : Except String ExecEffect :=
  if action = "describe" then _describe_resource ctx ns rt name proc
  else if action = "logs" then _get_logs ctx ns rt name false proc
  else if action = "logs_previous" then _get_logs ctx ns rt name true proc
  else if action = "port_forward" then Except.ok (_port_forward ctx ns rt name)
  else if action = "exec" then Except.ok (_exec_shell ctx ns rt name)
  else if action = "edit" then Except.ok (_edit_resource ctx ns rt name)
  else if action = "delete" then Except.ok (_delete_resource ctx ns rt name)
  else if action = "scale" then Except.ok (_scale_deployment ctx ns rt name)
  else if action = "restart" then _restart_deployment ctx ns rt name proc
  else if action = "rollout_status" then _rollout_status ctx ns rt name proc
  else if action = "view_data" then _view_data ctx ns rt name proc
  else Except.ok ⟨[], none⟩

/-- OperationsScreen.execute_operation (src/cli.py 119-145): the dispatch
wrapped in try/except; any exception becomes a result screen titled Error
whose body carries the exception message. -/
def execute_operation (ctx ns rt name action : String)
    (proc : Except String ProcResult) : ExecEffect :=
  match dispatchOperation ctx ns rt name action proc with
  | Except.ok eff => eff
  | Except.error e => ⟨[], some ⟨"Error", "Operation failed: " ++ e⟩⟩

/-- OperationsScreen._get_operations_for_resource (src/cli.py 59-98):
the static table of (label, action tag) pairs keyed on the resource type. -/
def _get_operations_for_resource (resource_type : String) : List (String × String) :=
  if resource_type = "pods" then
    [("📋 Describe", "describe"), ("📜 Get Logs", "logs"),
     ("📜 Get Previous Logs", "logs_previous"), ("🔗 Port Forward", "port_forward"),
     ("💻 Exec Shell", "exec"), ("📝 Edit", "edit"), ("🗑️ Delete", "delete")]
  else if resource_type = "services" then
    [("📋 Describe", "describe"), ("📝 Edit", "edit"), ("🗑️ Delete", "delete")]
  else if resource_type = "deployments" then
    [("📋 Describe", "describe"), ("📏 Scale", "scale"), ("🔄 Restart Rollout", "restart"),
     ("📊 Rollout Status", "rollout_status"), ("📝 Edit", "edit"), ("🗑️ Delete", "delete")]
  else if resource_type = "configmaps" ∨ resource_type = "secrets" then
    [("📋 Describe", "describe"), ("👁️ View Data", "view_data"),
     ("📝 Edit", "edit"), ("🗑️ Delete", "delete")]
  else
    [("📋 Describe", "describe"), ("📝 Edit", "edit"), ("🗑️ Delete", "delete")]

/-- The action tags of the operation table, in order. -/
def operationActions (resource_type : String) : List String :=
  (_get_operations_for_resource resource_type).map Prod.snd

/-- One entry of status.containerStatuses of a decoded pod record; the code
reads both fields through dict.get with a default (src/cli.py 519, 524). -/
structure ContainerStatus where
  ready : Option Bool
  restartCount : Option Nat
deriving DecidableEq

/-- A decoded pod record as read by load_resources (src/cli.py 512-530):
metadata.name and status.phase are bracket accesses, containerStatuses is
status.get with default []. -/
structure PodItem where
  name : String
  phase : String
  containerStatuses : Option (List ContainerStatus)
deriving DecidableEq

/-- The pod row of src/cli.py 512-530: name, ready count over total,
phase, summed restarts, and the fixed Unknown age. -/
def podRow (item : PodItem) : List String :=
  let containers := item.containerStatuses.getD []
  let ready_count := containers.countP (fun c => c.ready.getD false)
  let total_count := containers.length
  let restarts := (containers.map (fun c => c.restartCount.getD 0)).sum
  [item.name, toString ready_count ++ "/" ++ toString total_count, item.phase,
   toString restarts, "Unknown"]

/-- One entry of status.loadBalancer.ingress of a decoded service record;
src/cli.py 545 reads ip with the hostname lookup as its default, and the
hostname lookup defaults to Pending. -/
structure IngressEntry where
  ip : Option String
  hostname : Option String
deriving DecidableEq

/-- One entry of spec.ports of a decoded service record (src/cli.py
550-556): port is a bracket access, targetPort (a number or a string in
Kubernetes) and protocol are presence-checked. -/
structure ServicePort where
  port : Nat
  targetPort : Option (Nat ⊕ String)
  protocol : Option String
deriving DecidableEq

/-- How the Python f-string renders a targetPort value. -/
def renderTargetPort : Nat ⊕ String → String
  | Sum.inl n => toString n
  | Sum.inr s => s

/-- The port text of src/cli.py 550-556: port, then a colon and the target
port when present, then a slash and the protocol when present. -/
def renderServicePort (p : ServicePort) : String :=
  toString p.port ++
    (match p.targetPort with | some t => ":" ++ renderTargetPort t | none => "") ++
    (match p.protocol with | some pr => "/" ++ pr | none => "")

/-- A decoded service record as read by load_resources (src/cli.py 534-559).
svcType models spec.get with default ClusterIP, clusterIP spec.get with
default None, externalIPs a presence check on spec, loadBalancerIngress the
chained status.get lookups with default [], ports spec.get with default []. -/
structure ServiceItem where
  name : String
  svcType : Option String
  clusterIP : Option String
  externalIPs : Option (List String)
  loadBalancerIngress : List IngressEntry
  ports : List ServicePort
deriving DecidableEq

/-- The external-IP column of src/cli.py 539-547: external_ip starts as
None, is replaced by the comma-joined externalIPs when that key is present,
or, when the type is LoadBalancer, by the first ingress entry's ip or
hostname (Pending when there is no ingress entry). -/
def serviceExternalIP (item : ServiceItem) : String :=
  match item.externalIPs with
  | some ips => String.intercalate "," ips
  | none =>
    if item.svcType.getD "ClusterIP" = "LoadBalancer" then
      match item.loadBalancerIngress with
      | [] => "Pending"
      | e :: _ => e.ip.getD (e.hostname.getD "Pending")
    else "None"

/-- The service row of src/cli.py 534-559. -/
def serviceRow (item : ServiceItem) : List String :=
  let portStrs := item.ports.map renderServicePort
  let ports_str := if portStrs.isEmpty then "None" else String.intercalate "," portStrs
  [item.name, item.svcType.getD "ClusterIP", item.clusterIP.getD "None",
   serviceExternalIP item, ports_str]

/-- A decoded deployment record as read by load_resources (src/cli.py
563-577); every count is read through dict.get with default 0. -/
structure DeploymentItem where
  name : String
  replicas : Option Nat
  readyReplicas : Option Nat
  updatedReplicas : Option Nat
  availableReplicas : Option Nat
deriving DecidableEq

/-- The deployment row of src/cli.py 563-577. -/
def deploymentRow (item : DeploymentItem) : List String :=
  [item.name,
   toString (item.readyReplicas.getD 0) ++ "/" ++ toString (item.replicas.getD 0),
   toString (item.updatedReplicas.getD 0), toString (item.availableReplicas.getD 0),
   "Unknown"]

/-- A decoded configmap/secret/other record as read by the fallback branch
of load_resources (src/cli.py 581-585); data is item.get with default. -/
structure GenericItem where
  name : String
  data : Option (List (String × String))
deriving DecidableEq

/-- The generic row of src/cli.py 581-585: name, entry count of the data
map, fixed Unknown age. -/
def genericRow (item : GenericItem) : List String :=
  [item.name, toString (item.data.getD []).length, "Unknown"]

/-- A successfully decoded item list, tagged by the resource type the screen
requested; the constructor `other` covers every resource type string besides
pods, services and deployments (the source reaches it for configmaps and
secrets). -/
inductive DecodedItems where
  | pods (items : List PodItem)
  | services (items : List ServiceItem)
  | deployments (items : List DeploymentItem)
  | other (resource_type : String) (items : List GenericItem)
deriving DecidableEq

/-- The resource_type string the screen requested. -/
def DecodedItems.resourceType : DecodedItems → String
  | pods _ => "pods"
  | services _ => "services"
  | deployments _ => "deployments"
  | other rt _ => rt

/-- Whether the decoded item list is empty (the `if items:` test of
src/cli.py 508). -/
def DecodedItems.itemsEmpty : DecodedItems → Bool
  | pods items => items.isEmpty
  | services items => items.isEmpty
  | deployments items => items.isEmpty
  | other _ items => items.isEmpty

/-- The state ResourcesScreen.load_resources leaves behind: the table's
column headers and rows, and the stored self.resource_names list used by
row selection. -/
structure TableOut where
  columns : List String
  rows : List (List String)
  resource_names : List String
deriving DecidableEq

/-- ResourcesScreen.load_resources, success path (src/cli.py 480-588):
resource_names is reset, then one row (and one stored name) is appended per
record in input order; an empty decoded list yields the single informational
message row and no stored names. -/
def load_resources (ns : String) (d : DecodedItems) : TableOut :=
  if d.itemsEmpty then
    ⟨["Message"], [["No " ++ d.resourceType ++ " found in namespace " ++ ns]], []⟩
  else
    match d with
    | DecodedItems.pods items =>
      ⟨["Name", "Ready", "Status", "Restarts", "Age"],
       items.map podRow, items.map PodItem.name⟩
    | DecodedItems.services items =>
      ⟨["Name", "Type", "Cluster-IP", "External-IP", "Port(s)"],
       items.map serviceRow, items.map ServiceItem.name⟩
    | DecodedItems.deployments items =>
      ⟨["Name", "Ready", "Up-to-date", "Available", "Age"],
       items.map deploymentRow, items.map DeploymentItem.name⟩
    | DecodedItems.other _ items =>
      ⟨["Name", "Data", "Age"], items.map genericRow, items.map GenericItem.name⟩

/-- ResourcesScreen.load_resources including the non-zero exit branch
(src/cli.py 589-591): the error text becomes the single row of an Error
column and resource_names stays empty. -/
def load_resources_fetch (ns : String) (fetch : Except String DecodedItems) : TableOut :=
  match fetch with
  | Except.ok d => load_resources ns d
  | Except.error stderrText => ⟨["Error"], [["Error: " ++ stderrText]], []⟩

/-- ResourcesScreen.on_row_selected (src/cli.py 468-478): pushes an
OperationsScreen with (context, namespace, current resource type, selected
name) only when the stored name list is non-empty and the row index is in
bounds; otherwise nothing happens. -/
def on_row_selected (ctx ns rt : String) (resource_names : List String)
    (row_index : Nat) : Option (String × String × String × String) :=
  if h : resource_names ≠ [] ∧ row_index < resource_names.length then
    some (ctx, ns, rt, resource_names.get ⟨row_index, h.2⟩)
  else none

/-- Python string comparison, lexicographic on code points, as a Boolean
on the underlying character lists. -/
def strLe (a b : String) : Bool := decide (a.data ≤ b.data)

/-- Stable insertion of a string into an ascending list. -/
def insertSorted (a : String) : List String → List String
  | [] => [a]
  | b :: rest => if strLe a b then a :: b :: rest else b :: insertSorted a rest

/-- Model of the Python builtin sorted on a list of strings: a stable
ascending sort by code-point order. -/
def pySorted (l : List String) : List String := l.foldr insertSorted []

/-- NamespaceSelectionScreen.load_namespaces, success path (src/cli.py
388-395): the decoded names are stored in self.namespaces in decoded order,
while the visible list receives the names in sorted order.  Returns the
pair (stored list, displayed list). -/
def load_namespaces (decodedNames : List String) : List String × List String :=
  (decodedNames, pySorted decodedNames)

/-- NamespaceSelectionScreen.on_namespace_selected (src/cli.py 409-413):
when the stored list is non-empty, the pushed ResourcesScreen receives the
element of the STORED (unsorted) list at the selected visual index. -/
def on_namespace_selected (namespaces : List String) (idx : Nat) : Option String :=
  if namespaces.isEmpty then none else namespaces.get? idx

/-- One Textual screen, restricted to the screens this application uses.
defaultScreen is the blank screen Textual itself installs when the app
starts, before K8sDashboard pushes anything. -/
inductive ScreenS where
  | defaultScreen
  | contextSelect (contexts : List String) (current : String)
  | namespaceSelect (ctx : String)
  | resources (ctx ns : String)
  | operations (ctx ns rt name : String)
  | opResult (title content : String)
deriving DecidableEq

/-- App state: the Textual screen stack (head is the active screen) and
whether the app is still running. -/
structure AppState where
  stack : List ScreenS
  running : Bool
deriving DecidableEq

/-- Textual push_screen: the new screen becomes the active top. -/
def push_screen (st : AppState) (s : ScreenS) : AppState :=
  ⟨s :: st.stack, st.running⟩

/-- Textual pop_screen: removes the active screen.  Textual refuses to pop
the last remaining screen (it raises ScreenStackError), so a stack of one
is left unchanged; the stack can therefore never become empty. -/
def pop_screen (st : AppState) : AppState :=
  match st.stack with
  | _ :: b :: rest => ⟨b :: rest, st.running⟩
  | _ => st

/-- App.exit: the application stops running. -/
def app_exit (st : AppState) : AppState := ⟨st.stack, false⟩

/-- The stack Textual gives K8sDashboard before on_mount runs: just the
automatically created blank default screen. -/
def initialAppState : AppState := ⟨[ScreenS.defaultScreen], true⟩

/-- K8sDashboard.load_contexts, decode-success path (src/cli.py 741-758):
with a non-empty context list the ContextSelectionScreen is pushed on top of
the default screen, otherwise the app exits with a message. -/
def load_contexts (st : AppState) (contexts : List String) (current : String) : AppState :=
  if contexts.isEmpty then app_exit st
  else push_screen st (ScreenS.contextSelect contexts current)

/-- ContextSelectionScreen.action_back (src/cli.py 342-343): bound to
escape, it simply calls app.pop_screen. -/
def contextSelect_action_back (st : AppState) : AppState := pop_screen st
/-- C1: the namespace screen displays the decoded names in ascending
alphabetical order, but selection indexes the UNSORTED stored list, so the
screen opened can differ from the entry shown: with decoded names
[beta, alpha] the first displayed entry is alpha while selecting it opens
the resource list for beta. -/
theorem c1_sorted_display_unsorted_selection :
    load_namespaces ["beta", "alpha"] = (["beta", "alpha"], ["alpha", "beta"]) ∧
    (load_namespaces ["beta", "alpha"]).2.get? 0 = some "alpha" ∧
    on_namespace_selected ["beta", "alpha"] 0 = some "beta" ∧
    ("beta" : String) ≠ "alpha" := by
  refine ⟨by decide, by decide, by decide, by decide⟩

/-- C7: for every resource kind, an empty decoded list projects to exactly
one informational row and an empty stored resource-name list. -/
theorem c7_empty_projection (ns : String) (d : DecodedItems)
    (h : d.itemsEmpty = true) :
    (load_resources ns d).rows = [["No " ++ d.resourceType ++ " found in namespace " ++ ns]] ∧
    (load_resources ns d).rows.length = 1 ∧
    (load_resources ns d).resource_names = [] := by
  simp [load_resources, h]

/-- Witness for c7_empty_projection at an empty pod list. -/
theorem c7_empty_projection_witness :
    (load_resources "default" (DecodedItems.pods [])).rows =
      [["No pods found in namespace default"]] ∧
    (load_resources "default" (DecodedItems.pods [])).resource_names = [] := by
  have h := c7_empty_projection "default" (DecodedItems.pods []) (by decide)
  refine ⟨h.1.trans (by decide), h.2.2⟩

/-- C8: whenever the operation dispatch raises (the dispatch models the try
block of execute_operation), the caught result is a screen titled Error
whose body is the exception message behind the fixed marker, no process
output is shown and the exception does not escape. -/
theorem c8_exception_caught (ctx ns rt name action msg : String)
    (proc : Except String ProcResult)
    (h : dispatchOperation ctx ns rt name action proc = Except.error msg) :
    execute_operation ctx ns rt name action proc =
      ⟨[], some ⟨"Error", "Operation failed: " ++ msg⟩⟩ := by
  unfold execute_operation
  rw [h]

/-- Witness for c8_exception_caught: a describe whose subprocess raises. -/
theorem c8_exception_caught_witness :
    execute_operation "dev" "default" "pods" "web" "describe"
        (Except.error "kubectl not found") =
      ⟨[], some ⟨"Error", "Operation failed: kubectl not found"⟩⟩ := by
  exact c8_exception_caught "dev" "default" "pods" "web" "describe"
    "kubectl not found" (Except.error "kubectl not found") rfl

/-- C9: the stack is indeed never emptied, but back/escape at the root
ContextSelect screen is neither a no-op nor a quit: with contexts
[dev, prod] the escape action pops the context screen and leaves the app
running on the blank default screen. -/
theorem c9_back_at_root_pops_to_blank :
    (load_contexts initialAppState ["dev", "prod"] "prod").stack =
      [ScreenS.contextSelect ["dev", "prod"] "prod", ScreenS.defaultScreen] ∧
    (contextSelect_action_back (load_contexts initialAppState ["dev", "prod"] "prod")).stack =
      [ScreenS.defaultScreen] ∧
    (contextSelect_action_back (load_contexts initialAppState ["dev", "prod"] "prod")).running = true ∧
    contextSelect_action_back (load_contexts initialAppState ["dev", "prod"] "prod") ≠
      load_contexts initialAppState ["dev", "prod"] "prod" ∧
    (contextSelect_action_back (load_contexts initialAppState ["dev", "prod"] "prod")).stack ≠ [] := by
  refine ⟨by decide, by decide, by decide, by decide, by decide⟩

/-- C10: when the stored resource-name list is empty, or the selected row
index is at or beyond its length, row selection pushes no operations
screen. -/
theorem c10_selection_noop (ctx ns rt : String) (resource_names : List String)
    (row_index : Nat) :
    (resource_names = [] → on_row_selected ctx ns rt resource_names row_index = none) ∧
    (resource_names.length ≤ row_index → on_row_selected ctx ns rt resource_names row_index = none) := by
  constructor
  · intro h
    simp [on_row_selected, h]
  · intro h
    unfold on_row_selected
    rw [dif_neg]
    intro hc
    exact absurd hc.2 (Nat.not_lt.mpr h)

/-- Witness for c10_selection_noop: an empty list and an out-of-range index. -/
theorem c10_selection_noop_witness :
    on_row_selected "dev" "default" "pods" [] 0 = none ∧
    on_row_selected "dev" "default" "pods" ["web"] 5 = none := by
  exact ⟨(c10_selection_noop "dev" "default" "pods" [] 0).1 rfl,
    (c10_selection_noop "dev" "default" "pods" ["web"] 5).2 (by decide)⟩
/-- C2 counterexample: restart is a synchronously executed operation, yet on
exit status zero its body is a success banner followed by standard output,
not exactly the captured standard output. -/
theorem c2_counterexample_restart_banner :
    restartBody ⟨0, "deployment restarted", ""⟩ ≠ "deployment restarted" ∧
    restartBody ⟨0, "deployment restarted", ""⟩ =
      "✅ Deployment restart initiated successfully!\n\ndeployment restarted" := by
  refine ⟨by decide, by decide⟩

/-- C2 amended: on exit zero, describe, rollout-status and view-data bodies
are exactly standard output; the logs body is standard output unless it is
empty, in which case it is the fixed fallback text; the restart body is a
success banner followed by standard output.  On any non-zero exit every
body is standard error behind an error indicator. -/
theorem c2_amended_process_boundary (r : ProcResult) :
    (r.returncode = 0 →
      describeBody r = r.stdout ∧
      rolloutStatusBody r = r.stdout ∧
      viewDataBody r = r.stdout ∧
      (r.stdout ≠ "" → logsBody r = r.stdout) ∧
      (r.stdout = "" → logsBody r = "No logs available") ∧
      restartBody r = "✅ Deployment restart initiated successfully!\n\n" ++ r.stdout) ∧
    (r.returncode ≠ 0 →
      describeBody r = "Error: " ++ r.stderr ∧
      rolloutStatusBody r = "Error: " ++ r.stderr ∧
      viewDataBody r = "Error: " ++ r.stderr ∧
      logsBody r = "Error: " ++ r.stderr ∧
      restartBody r = "❌ Error restarting deployment: " ++ r.stderr) := by
  unfold describeBody rolloutStatusBody viewDataBody logsBody restartBody
  constructor
  · intro h
    refine ⟨by simp [h], by simp [h], by simp [h], ?_, ?_, by simp [h]⟩
    · intro hs
      simp [h, hs]
    · intro hs
      simp [h, hs]
  · intro h
    refine ⟨by simp [h], by simp [h], by simp [h], by simp [h], by simp [h]⟩

/-- Witness for c2_amended_process_boundary, exercising the zero-exit, the
empty-stdout and the non-zero-exit hypotheses at concrete inputs. -/
theorem c2_amended_process_boundary_witness :
    describeBody ⟨0, "out", "err"⟩ = "out" ∧
    logsBody ⟨0, "", "err"⟩ = "No logs available" ∧
    restartBody ⟨1, "out", "err"⟩ = "❌ Error restarting deployment: " ++ "err" := by
  refine ⟨((c2_amended_process_boundary ⟨0, "out", "err"⟩).1 rfl).1, ?_, ?_⟩
  · exact ((c2_amended_process_boundary ⟨0, "", "err"⟩).1 rfl).2.2.2.2.1 rfl
  · exact ((c2_amended_process_boundary ⟨1, "out", "err"⟩).2 (by decide)).2.2.2.2

/-- C4 counterexample: the ConfigMap and Deployment operation lists are not
subsets of Pod's list: view_data and scale are offered there but absent
from the Pod list. -/
theorem c4_counterexample_not_subsets_of_pod :
    "view_data" ∈ operationActions "configmaps" ∧
    "view_data" ∉ operationActions "pods" ∧
    "scale" ∈ operationActions "deployments" ∧
    "scale" ∉ operationActions "pods" := by
  refine ⟨by decide, by decide, by decide, by decide⟩

/-- C4 amended: the operation table is a fixed non-empty list for every
resource type; Pod's list strictly contains the base describe/edit/delete
set; Service's list is a subset of Pod's; Deployment, ConfigMap and Secret
each strictly contain the base set (but are not subsets of Pod's list); any
unrecognized resource type receives exactly the base set. -/
theorem c4_amended_static_operation_table (rt : String) :
    _get_operations_for_resource rt ≠ [] ∧
    (∀ a ∈ (["describe", "edit", "delete"] : List String), a ∈ operationActions "pods") ∧
    operationActions "pods" ≠ ["describe", "edit", "delete"] ∧
    "logs" ∈ operationActions "pods" ∧
    "logs" ∉ (["describe", "edit", "delete"] : List String) ∧
    (∀ a ∈ operationActions "services", a ∈ operationActions "pods") ∧
    (∀ a ∈ (["describe", "edit", "delete"] : List String),
      a ∈ operationActions "deployments" ∧
      a ∈ operationActions "configmaps" ∧ a ∈ operationActions "secrets") ∧
    "scale" ∈ operationActions "deployments" ∧
    "view_data" ∈ operationActions "configmaps" ∧
    "view_data" ∈ operationActions "secrets" ∧
    (rt ≠ "pods" → rt ≠ "services" → rt ≠ "deployments" → rt ≠ "configmaps" →
      rt ≠ "secrets" → operationActions rt = ["describe", "edit", "delete"]) := by
  refine ⟨?_, by decide, by decide, by decide, by decide, by decide, by decide,
    by decide, by decide, by decide, ?_⟩
  · unfold _get_operations_for_resource
    split
    · simp
    · split
      · simp
      · split
        · simp
        · split
          · simp
          · simp
  · intro h1 h2 h3 h4 h5
    unfold operationActions _get_operations_for_resource
    rw [if_neg h1, if_neg h2, if_neg h3, if_neg (by simp [h4, h5])]
    rfl

/-- Witness for c4_amended_static_operation_table at an unrecognized
resource type, discharging every hypothesis. -/
theorem c4_amended_static_operation_table_witness :
    _get_operations_for_resource "widgets" ≠ [] ∧
    "describe" ∈ operationActions "pods" ∧
    operationActions "widgets" = ["describe", "edit", "delete"] := by
  have h := c4_amended_static_operation_table "widgets"
  exact ⟨h.1, h.2.1 "describe" (by decide),
    h.2.2.2.2.2.2.2.2.2.2 (by decide) (by decide) (by decide) (by decide) (by decide)⟩
/-- C3: for the instructional operations (port-forward, exec, edit, delete,
scale) no external process is launched for any resource type, and the
result bodies carry the exact command line: port-forward and exec on a pod,
edit and delete on any resource (delete behind the destructive-action
warning), and scale on a deployment with both the scale-up and the
scale-down command. -/
theorem c3_instructional_ops_launch_nothing (ctx ns name rt : String)
    (proc : Except String ProcResult) :
    (∀ action ∈ (["port_forward", "exec", "edit", "delete", "scale"] : List String),
      (execute_operation ctx ns rt name action proc).launched = []) ∧
    (execute_operation ctx ns "pods" name "port_forward" proc).screen =
      some ⟨"Port Forward Setup",
        "To set up port forwarding, run:\n\n" ++ portForwardCmd ctx ns name ++
          "\n\nThis will forward local port 8080 to pod port 80.\nYou can modify the ports as needed."⟩ ∧
    (execute_operation ctx ns "pods" name "exec" proc).screen =
      some ⟨"Exec Shell",
        "To execute a shell in the pod, run:\n\n" ++ execShellCmd ctx ns name ++
          "\n\nAlternatively, try /bin/sh if bash is not available."⟩ ∧
    (execute_operation ctx ns rt name "edit" proc).screen =
      some ⟨"Edit Resource",
        "To edit this resource, run:\n\n" ++ editCmd ctx ns rt name ++
          "\n\nThis will open the resource in your default editor."⟩ ∧
    (execute_operation ctx ns rt name "delete" proc).screen =
      some ⟨"Delete Resource",
        "⚠️ WARNING: This will permanently delete the resource!\n\nTo delete this resource, run:\n\n" ++
          deleteCmd ctx ns rt name ++ "\n\n⚠️ This action cannot be undone!"⟩ ∧
    (execute_operation ctx ns "deployments" name "scale" proc).screen =
      some ⟨"Scale Deployment",
        "To scale this deployment:\n\nScale to 3 replicas:\n" ++ scaleCmd ctx ns name "3" ++
          "\n\nScale to 0 (stop all pods):\n" ++ scaleCmd ctx ns name "0"⟩ := by
  refine ⟨?_, ?_, ?_, ?_, ?_, ?_⟩
  · intro action ha
    fin_cases ha <;>
      simp only [execute_operation, dispatchOperation] <;>
      simp [_port_forward, _exec_shell, _edit_resource, _delete_resource,
        _scale_deployment] <;>
      split <;> simp
  · simp [execute_operation, dispatchOperation, _port_forward]
  · simp [execute_operation, dispatchOperation, _exec_shell]
  · simp [execute_operation, dispatchOperation, _edit_resource]
  · simp [execute_operation, dispatchOperation, _delete_resource]
  · simp [execute_operation, dispatchOperation, _scale_deployment]

/-- Witness for c3_instructional_ops_launch_nothing at concrete inputs,
discharging the list-membership hypothesis. -/
theorem c3_instructional_ops_launch_nothing_witness :
    (execute_operation "dev" "default" "widgets" "w1" "delete"
        (Except.ok ⟨0, "", ""⟩)).launched = [] ∧
    (execute_operation "dev" "default" "pods" "web" "port_forward"
        (Except.ok ⟨0, "", ""⟩)).screen =
      some ⟨"Port Forward Setup",
        "To set up port forwarding, run:\n\n" ++ portForwardCmd "dev" "default" "web" ++
          "\n\nThis will forward local port 8080 to pod port 80.\nYou can modify the ports as needed."⟩ := by
  exact ⟨(c3_instructional_ops_launch_nothing "dev" "default" "w1" "widgets"
      (Except.ok ⟨0, "", ""⟩)).1 "delete" (by decide),
    (c3_instructional_ops_launch_nothing "dev" "default" "web" "widgets"
      (Except.ok ⟨0, "", ""⟩)).2.1⟩
/-- A service of default type with no externalIPs key, as decoded. -/
def plainService : ServiceItem := ⟨"db", none, none, none, [], []⟩

/-- The LoadBalancer scenario service of the spec: no externalIPs, one
ingress entry carrying only a hostname. -/
def lbService : ServiceItem :=
  ⟨"web-lb", some "LoadBalancer", none, none, [⟨none, some "lb.example.com"⟩], []⟩

/-- C5 counterexample: for a service that is not a LoadBalancer and has no
externalIPs the external-IP column is the initial None, not Pending as the
claim's final fallback states. -/
theorem c5_counterexample_no_pending_for_clusterip :
    (serviceRow plainService).get? 3 = some "None" ∧
    (serviceRow plainService).get? 3 ≠ some "Pending" := by
  refine ⟨by decide, by decide⟩

/-- C5 amended: the service row is (name, type defaulting to ClusterIP,
cluster IP defaulting to None, external address, ports).  The external
address is the comma-joined externalIPs when that key is present; otherwise
for type LoadBalancer the first ingress entry's IP or hostname (Pending
when there is no ingress entry); otherwise None.  Ports render as
port[:targetPort][/protocol] joined by commas, or None when empty. -/
theorem c5_amended_service_projection (item : ServiceItem) :
    serviceRow item = [item.name, item.svcType.getD "ClusterIP",
      item.clusterIP.getD "None", serviceExternalIP item,
      if item.ports.isEmpty then "None"
      else String.intercalate "," (item.ports.map renderServicePort)] ∧
    (∀ ips, item.externalIPs = some ips →
      serviceExternalIP item = String.intercalate "," ips) ∧
    (item.externalIPs = none → item.svcType.getD "ClusterIP" = "LoadBalancer" →
      (item.loadBalancerIngress = [] → serviceExternalIP item = "Pending") ∧
      (∀ e rest, item.loadBalancerIngress = e :: rest →
        serviceExternalIP item = e.ip.getD (e.hostname.getD "Pending"))) ∧
    (item.externalIPs = none → item.svcType.getD "ClusterIP" ≠ "LoadBalancer" →
      serviceExternalIP item = "None") ∧
    (∀ p, renderServicePort p =
      toString p.port ++
        (match p.targetPort with | some t => ":" ++ renderTargetPort t | none => "") ++
        (match p.protocol with | some pr => "/" ++ pr | none => "")) := by
  refine ⟨?_, ?_, ?_, ?_, fun p => rfl⟩
  · cases hp : item.ports with
    | nil => simp [serviceRow, hp]
    | cons a l => simp [serviceRow, hp]
  · intro ips h
    simp [serviceExternalIP, h]
  · intro h1 h2
    constructor
    · intro h3
      simp [serviceExternalIP, h1, h2, h3]
    · intro e rest h3
      simp [serviceExternalIP, h1, h2, h3]
  · intro h1 h2
    simp [serviceExternalIP, h1, h2]

/-- Witness for c5_amended_service_projection: the spec's LoadBalancer
hostname scenario resolves to the hostname, and the plain service to None. -/
theorem c5_amended_service_projection_witness :
    serviceExternalIP lbService = "lb.example.com" ∧
    serviceExternalIP plainService = "None" := by
  refine ⟨?_, ?_⟩
  · exact (((c5_amended_service_projection lbService).2.2.1 rfl rfl).2
      ⟨none, some "lb.example.com"⟩ [] rfl).trans rfl
  · exact (c5_amended_service_projection plainService).2.2.2.1 rfl (by decide)

/-- C6: a non-empty decoded pod list projects to exactly one row per record
in input order, with the ready column counting the containers reporting
ready over the container total, the restart column the summed per-container
restart counts, and the status column the reported phase. -/
theorem c6_pod_projection (ns : String) (items : List PodItem) (h : items ≠ []) :
    (load_resources ns (DecodedItems.pods items)).rows.length = items.length ∧
    (load_resources ns (DecodedItems.pods items)).resource_names = items.map PodItem.name ∧
    ∀ i, (load_resources ns (DecodedItems.pods items)).rows.get? i =
      (items.get? i).map (fun item =>
        [item.name,
         toString ((item.containerStatuses.getD []).countP (fun c => c.ready.getD false)) ++
           "/" ++ toString (item.containerStatuses.getD []).length,
         item.phase,
         toString ((item.containerStatuses.getD []).map (fun c => c.restartCount.getD 0)).sum,
         "Unknown"]) := by
  have hne : (DecodedItems.pods items).itemsEmpty = false := by
    cases items with
    | nil => exact absurd rfl h
    | cons a l => simp [DecodedItems.itemsEmpty]
  refine ⟨?_, ?_, ?_⟩
  · simp [load_resources, hne]
  · simp [load_resources, hne]
  · intro i
    simp only [load_resources, hne, Bool.false_eq_true, if_false, List.get?_eq_getElem?,
      List.getElem?_map]
    cases items[i]? with
    | none => rfl
    | some item => simp [podRow]

/-- Witness for c6_pod_projection: the spec scenario with two of three
containers ready and restart counts 1, 0, 2. -/
theorem c6_pod_projection_witness :
    (load_resources "default"
        (DecodedItems.pods
          [⟨"web", "Running",
            some [⟨some true, some 1⟩, ⟨some true, some 0⟩, ⟨some false, some 2⟩]⟩])).rows.get? 0 =
      some ["web", "2/3", "Running", "3", "Unknown"] := by
  have h := (c6_pod_projection "default"
    [⟨"web", "Running",
      some [⟨some true, some 1⟩, ⟨some true, some 0⟩, ⟨some false, some 2⟩]⟩]
    (by decide)).2.2 0
  rw [h]
  decide
